import Mathlib

/-! Shallow embedding of the Sentinel-BIST hybrid decision engine
(`engine.py`, class `HybridDecisionEngine`) together with the decision
cycle driver (`run_cycle`).  Scores and prices are modelled as exact
rationals, calendar dates as natural numbers, and the external
collaborators (technical analyzer, sentiment analyzer, broker, market
data fetch) as an explicit environment record.  A sentiment or
technical fetch that raises an exception in Python is modelled by
`Option`/`Except` results.
-/

namespace SentinelBIST

/-- Result of hybrid decision evaluation (`DecisionResult` dataclass). -/
structure DecisionResult where
  action : String
  ticker : String
  T_score : ℚ
  S_score : ℚ
  confidence_score : ℚ
  aligned : Bool
  daily_trades_left : Nat
  reason : String
deriving DecidableEq

/-- A broker position; the engine only reads its entry price
(`pos.entry_price` in `_check_drawdown_sell`). -/
structure Position where
  entry_price : ℚ
deriving DecidableEq

/-- External collaborators of the engine, as pure oracles.
`getPosition` models `broker.get_position`; `currentPrice` models the
market-data fetch inside `_get_current_price` (which already maps an
empty history or a raised exception to `None`); `sentimentRisk` models
`sentiment.score_for_ticker_with_risk` (`none` = the call raised);
`technical` models `technical.analyze` projected to its score
(`Except.error msg` = the call raised with message `msg`). -/
structure Env where
  getPosition : String → Option Position
  currentPrice : String → Option ℚ
  sentimentRisk : String → Option (ℚ × Bool)
  technical : String → Except String ℚ

/-- Mutable fields of `HybridDecisionEngine`:
`_trade_counter_date`, `_trade_count_today`, `_peak_prices`. -/
structure EngineState where
  trade_counter_date : Option Nat
  trade_count_today : Nat
  peak_prices : String → Option ℚ

/-- State of a freshly constructed engine (`__init__`). -/
def freshState : EngineState :=
  { trade_counter_date := none, trade_count_today := 0, peak_prices := fun _ => none }

/-- Case analysis on an optional value (used instead of `match` so that
rewriting reduces it step by step). -/
def optCase {A B : Type} (o : Option A) (n : B) (s : A → B) : B :=
  match o with
  | none => n
  | some a => s a

@[simp] theorem optCase_none {A B : Type} (n : B) (s : A → B) :
    optCase (none : Option A) n s = n := rfl

@[simp] theorem optCase_some {A B : Type} (a : A) (n : B) (s : A → B) :
    optCase (some a) n s = s a := rfl

/-- Case analysis on an `Except` value. -/
def exceptCase {E A B : Type} (x : Except E A) (err : E → B) (ok : A → B) : B :=
  match x with
  | .error e => err e
  | .ok a => ok a

@[simp] theorem exceptCase_error {E A B : Type} (e : E) (err : E → B) (ok : A → B) :
    exceptCase (Except.error e) err ok = err e := rfl

@[simp] theorem exceptCase_ok {E A B : Type} (a : A) (err : E → B) (ok : A → B) :
    exceptCase (Except.ok a) err ok = ok a := rfl

/-- Source `MAX_DAILY_TRADES = 3`. -/
def MAX_DAILY_TRADES : Nat := 3

/-- Source `ALIGNMENT_THRESHOLD = 0.2`. -/
def ALIGNMENT_THRESHOLD : ℚ := 2/10

/-- Source `DRAWDOWN_THRESHOLD = 0.03`. -/
def DRAWDOWN_THRESHOLD : ℚ := 3/100

/-- Source `ANIMAL_SPIRITS_PENALTY = 0.30`. -/
def ANIMAL_SPIRITS_PENALTY : ℚ := 3/10

/-- Source `_refresh_daily_counter`: reset trade count at start of a new day. -/
def refresh_daily_counter (today : Nat) (s : EngineState) : EngineState :=
  if s.trade_counter_date = some today then s
  else { s with trade_counter_date := some today, trade_count_today := 0 }

/-- Source `_increment_trade_count`: increment trade count; return `true` if
under the limit (the state component is the updated engine state). -/
def increment_trade_count (today : Nat) (s : EngineState) : Bool × EngineState :=
  let s := refresh_daily_counter today s
  if MAX_DAILY_TRADES ≤ s.trade_count_today then (false, s)
  else (true, { s with trade_count_today := s.trade_count_today + 1 })

/-- Source `_trades_remaining`: number of trades left today (`max(0, 3 - count)`
is truncated `Nat` subtraction here); also returns the refreshed state. -/
def trades_remaining (today : Nat) (s : EngineState) : Nat × EngineState :=
  let s := refresh_daily_counter today s
  (MAX_DAILY_TRADES - s.trade_count_today, s)

/-- Source `_get_current_price`: the external last-close fetch (its internal
ticker normalisation and exception handling are part of the oracle). -/
def get_current_price (env : Env) (ticker : String) : Option ℚ :=
  env.currentPrice ticker

/-- Source `_check_drawdown_sell`: if the held position dropped at least 3%
from its running peak, trigger SELL; updates the stored peak. -/
def check_drawdown_sell (env : Env) (s : EngineState) (ticker : String) :
    Bool × EngineState :=
  optCase (env.getPosition ticker) (false, s) (fun pos =>
    optCase (get_current_price env ticker) (false, s) (fun current =>
      let peak := max ((s.peak_prices ticker).getD pos.entry_price) current
      let s' := { s with peak_prices := fun t => if t = ticker then some peak else s.peak_prices t }
      (decide (DRAWDOWN_THRESHOLD ≤ (peak - current) / peak), s')))

/-- The effective alignment threshold computed inside `_aligned`:
`ALIGNMENT_THRESHOLD / confidence` when `confidence > 0`, else
`ALIGNMENT_THRESHOLD`. -/
def effective_threshold (confidence : ℚ) : ℚ :=
  if 0 < confidence then ALIGNMENT_THRESHOLD / confidence else ALIGNMENT_THRESHOLD

/-- Source `_aligned`: check whether T and S align for a trade; returns
`(aligned, direction)`. -/
def _aligned (T S confidence : ℚ) : Bool × String :=
  let thresh := effective_threshold confidence
  if thresh < T ∧ thresh < S then (true, "bullish")
  else if T < -thresh ∧ S < -thresh then (true, "bearish")
  else (false, "neutral")

/-- Python truthiness of the `current_holding` argument: the guards
`if current_holding:` treat both `None` and the empty string as absent. -/
def optTruthy (o : Option String) : Option String :=
  match o with
  | none => none
  | some h => if h = "" then none else some h

/-- The bullish-entry section of `evaluate` (from `T, _ = self.technical.analyze(ticker)`
to the end of the function).  `remaining` is the value captured by the
quota gate at entry; `S`/`confidence` were computed for the candidate. -/
def bullish_check (env : Env) (today : Nat) (ticker : String)
    (remaining : Nat) (S confidence : ℚ) (s : EngineState) :
    DecisionResult × EngineState :=
  exceptCase (env.technical ticker)
    (fun e =>
      ({ action := "HOLD", ticker := ticker, T_score := 0, S_score := S,
         confidence_score := confidence, aligned := false,
         daily_trades_left := remaining,
         reason := "Technical analysis failed: " ++ e }, s))
    (fun T =>
    let a := _aligned T S confidence
    if a.1 = true ∧ a.2 = "bullish" then
      let r := increment_trade_count today s
      if r.1 then
        ({ action := "BUY", ticker := ticker, T_score := T, S_score := S,
           confidence_score := confidence, aligned := true,
           daily_trades_left := (trades_remaining today r.2).1,
           reason := "Technical and sentiment aligned bullish."
             ++ (if confidence < 1 then " (Confidence reduced: Animal Spirits risk)" else "") },
         (trades_remaining today r.2).2)
      else
        ({ action := "HOLD", ticker := ticker, T_score := T, S_score := S,
           confidence_score := confidence, aligned := a.1,
           daily_trades_left := remaining,
           reason := "T and S not aligned for trade."
             ++ (if confidence < 1 then " (Confidence reduced: enflasyon/belirsizlik in news)" else "") },
         r.2)
    else
      ({ action := "HOLD", ticker := ticker, T_score := T, S_score := S,
         confidence_score := confidence, aligned := a.1,
         daily_trades_left := remaining,
         reason := "T and S not aligned for trade."
           ++ (if confidence < 1 then " (Confidence reduced: enflasyon/belirsizlik in news)" else "") },
       s))

/-- The candidate's sentiment score: `S` after the `try/except` around
`score_for_ticker_with_risk(ticker)` (0.0 when the call raised). -/
def candidate_S (env : Env) (ticker : String) : ℚ :=
  ((env.sentimentRisk ticker).getD (0, false)).1

/-- The candidate's confidence after the Animal-Spirits penalty
(`1 - 0.30` when the risk flag is set, else `1.0`; a raised call
defaults the flag to `False`). -/
def candidate_confidence (env : Env) (ticker : String) : ℚ :=
  if ((env.sentimentRisk ticker).getD (0, false)).2 then 1 - ANIMAL_SPIRITS_PENALTY else 1

/-- The holding's technical score `T_hold` (0.0 when `analyze` raised). -/
def holding_T (env : Env) (hld : String) : ℚ :=
  exceptCase (env.technical hld) (fun _ => 0) (fun v => v)

/-- The holding's `(S_hold, conf_hold)` pair (`(0.0, 1.0)` when the
sentiment call raised). -/
def holding_SC (env : Env) (hld : String) : ℚ × ℚ :=
  optCase (env.sentimentRisk hld) (0, 1)
    (fun sr => (sr.1, if sr.2 then 1 - ANIMAL_SPIRITS_PENALTY else 1))

/-- The part of `evaluate` after the quota gate and the drawdown branch:
candidate sentiment with Animal-Spirits confidence, the downside check
on the holding, then the bullish-entry check. -/
def evaluate_rest (env : Env) (today : Nat) (ticker : String)
    (holding : Option String) (remaining : Nat) (s : EngineState) :
    DecisionResult × EngineState :=
  let S := candidate_S env ticker
  let confidence := candidate_confidence env ticker
  optCase holding (bullish_check env today ticker remaining S confidence s) (fun h =>
    let T_hold := holding_T env h
    let SC : ℚ × ℚ := holding_SC env h
    let ah := _aligned T_hold SC.1 SC.2
    if ah.1 = true ∧ ah.2 = "bearish" then
      let r := increment_trade_count today s
      if r.1 then
        ({ action := "SELL", ticker := h, T_score := T_hold, S_score := SC.1,
           confidence_score := SC.2, aligned := true,
           daily_trades_left := (trades_remaining today r.2).1,
           reason := "Downside risk detected; rebalancing." },
         (trades_remaining today r.2).2)
      else
        ({ action := "HOLD", ticker := h, T_score := T_hold, S_score := SC.1,
           confidence_score := SC.2, aligned := true,
           daily_trades_left := 0,
           reason := "Downside risk but daily limit reached." },
         r.2)
    else bullish_check env today ticker remaining S confidence s)

/-- Source `evaluate`: the full rule cascade — quota gate, MIT-Sloan drawdown
stop-loss on the holding, then `evaluate_rest`. -/
def evaluate (env : Env) (today : Nat) (ticker : String)
    (current_holding : Option String) (s0 : EngineState) :
    DecisionResult × EngineState :=
  let remaining := (trades_remaining today s0).1
  let s := (trades_remaining today s0).2
  if remaining = 0 then
    ({ action := "HOLD", ticker := ticker, T_score := 0, S_score := 0,
       confidence_score := 1, aligned := false, daily_trades_left := 0,
       reason := "Daily trade limit (3) reached." }, s)
  else
    optCase (optTruthy current_holding) (evaluate_rest env today ticker none remaining s)
      (fun h =>
        let q := check_drawdown_sell env s h
        if q.1 then
          let r := increment_trade_count today q.2
          if r.1 then
            ({ action := "SELL", ticker := h, T_score := 0, S_score := 0,
               confidence_score := 1, aligned := true,
               daily_trades_left := (trades_remaining today r.2).1,
               reason := "MIT Sloan: Position dropped >3% from peak. Sell triggered." },
             (trades_remaining today r.2).2)
          else
            ({ action := "HOLD", ticker := h, T_score := 0, S_score := 0,
               confidence_score := 1, aligned := true, daily_trades_left := 0,
               reason := "Drawdown SELL required but daily limit reached." },
             r.2)
        else evaluate_rest env today ticker (some h) remaining q.2)

/-- One broker order issued during `run_cycle` (`execute_buy` /
`execute_sell` with quantity 1). -/
structure Order where
  side : String
  ticker : String
  qty : Nat
deriving DecidableEq

/-- Everything `run_cycle` produces: the ordered decision results, the
trace of broker orders, the final holding and the final engine state. -/
structure CycleOutput where
  results : List DecisionResult
  orders : List Order
  holding : Option String
  state : EngineState

/-- After a BUY in `run_cycle`: the bought ticker's peak entry is set to
the freshly fetched price or 0.0 (Python `price or 0.0` equals `getD 0`
since a falsy `0.0` price is replaced by the same value `0.0`). -/
def buy_update (env : Env) (ticker : String) (s1 : EngineState) : EngineState :=
  { s1 with peak_prices := fun t =>
      if t = ticker then some ((get_current_price env ticker).getD 0) else s1.peak_prices t }

/-- After a SELL in `run_cycle`: the sold ticker's peak entry is popped. -/
def sell_update (tk : String) (s1 : EngineState) : EngineState :=
  { s1 with peak_prices := fun t => if t = tk then none else s1.peak_prices t }

/-- Source `run_cycle`: evaluate each ticker in order, threading the current
holding and executing paper trades for BUY/SELL results. -/
def run_cycle (env : Env) (today : Nat) :
    List String → Option String → EngineState → CycleOutput
  | [], holding, s => { results := [], orders := [], holding := holding, state := s }
  | ticker :: rest, holding, s =>
    let p := evaluate env today ticker holding s
    let res := p.1
    let s1 := p.2
    if res.action = "BUY" then
      let out := run_cycle env today rest (some ticker) (buy_update env ticker s1)
      { results := res :: out.results, orders := { side := "BUY", ticker := ticker, qty := 1 } :: out.orders,
        holding := out.holding, state := out.state }
    else if res.action = "SELL" ∧ res.ticker ≠ "" then
      let out := run_cycle env today rest none (sell_update res.ticker s1)
      { results := res :: out.results, orders := { side := "SELL", ticker := res.ticker, qty := 1 } :: out.orders,
        holding := out.holding, state := out.state }
    else
      let out := run_cycle env today rest holding s1
      { results := res :: out.results, orders := out.orders,
        holding := out.holding, state := out.state }

/-! Section: Basic facts about the daily counter -/

theorem refresh_of_eq {today : Nat} {s : EngineState}
    (h : s.trade_counter_date = some today) : refresh_daily_counter today s = s := by
  simp [refresh_daily_counter, h]

theorem refresh_of_ne {today : Nat} {s : EngineState}
    (h : s.trade_counter_date ≠ some today) :
    refresh_daily_counter today s =
      { s with trade_counter_date := some today, trade_count_today := 0 } := by
  simp [refresh_daily_counter, h]

theorem refresh_date (today : Nat) (s : EngineState) :
    (refresh_daily_counter today s).trade_counter_date = some today := by
  unfold refresh_daily_counter
  split
  · assumption
  · rfl

theorem refresh_peak (today : Nat) (s : EngineState) :
    (refresh_daily_counter today s).peak_prices = s.peak_prices := by
  unfold refresh_daily_counter
  split <;> rfl

theorem refresh_idem (today : Nat) (s : EngineState) :
    refresh_daily_counter today (refresh_daily_counter today s) =
      refresh_daily_counter today s :=
  refresh_of_eq (refresh_date today s)

theorem trades_remaining_fst (today : Nat) (s : EngineState) :
    (trades_remaining today s).1 =
      MAX_DAILY_TRADES - (refresh_daily_counter today s).trade_count_today := rfl

theorem trades_remaining_snd (today : Nat) (s : EngineState) :
    (trades_remaining today s).2 = refresh_daily_counter today s := rfl

theorem increment_of_lt {today : Nat} {s : EngineState}
    (h : (refresh_daily_counter today s).trade_count_today < MAX_DAILY_TRADES) :
    increment_trade_count today s =
      (true, { refresh_daily_counter today s with
               trade_count_today := (refresh_daily_counter today s).trade_count_today + 1 }) := by
  unfold increment_trade_count
  simp [Nat.not_le.mpr h]

theorem increment_of_ge {today : Nat} {s : EngineState}
    (h : MAX_DAILY_TRADES ≤ (refresh_daily_counter today s).trade_count_today) :
    increment_trade_count today s = (false, refresh_daily_counter today s) := by
  unfold increment_trade_count
  simp [h]

theorem increment_false_state {today : Nat} {s : EngineState}
    (h : (increment_trade_count today s).1 = false) :
    (increment_trade_count today s).2 = s := by
  rcases Nat.lt_or_ge (refresh_daily_counter today s).trade_count_today MAX_DAILY_TRADES with hlt | hge
  · rw [increment_of_lt hlt] at h
    simp at h
  · rw [increment_of_ge hge]
    by_cases hd : s.trade_counter_date = some today
    · exact refresh_of_eq hd
    · rw [refresh_of_ne hd] at hge
      simp [MAX_DAILY_TRADES] at hge

/-! Section: Claim C1: the alignment classifier -/

/-- Claim C1: `_aligned` uses the confidence-scaled threshold
`ALIGNMENT_THRESHOLD / confidence` for positive confidence (and
`ALIGNMENT_THRESHOLD` otherwise), classifies bullish iff both scores
exceed it, bearish iff both are below its negation, neutral otherwise;
and for confidence in `(0,1]` the effective threshold is at least `0.2`,
strictly above `0.2` when confidence `< 1`. -/
theorem claim_C1 (T S c : ℚ) :
    effective_threshold c = (if 0 < c then ALIGNMENT_THRESHOLD / c else ALIGNMENT_THRESHOLD) ∧
    (_aligned T S c = (true, "bullish") ↔
      effective_threshold c < T ∧ effective_threshold c < S) ∧
    (_aligned T S c = (true, "bearish") ↔
      T < -effective_threshold c ∧ S < -effective_threshold c) ∧
    (_aligned T S c = (false, "neutral") ↔
      ¬(effective_threshold c < T ∧ effective_threshold c < S) ∧
      ¬(T < -effective_threshold c ∧ S < -effective_threshold c)) ∧
    (0 < c → c ≤ 1 →
      ALIGNMENT_THRESHOLD ≤ effective_threshold c ∧
      (c < 1 → ALIGNMENT_THRESHOLD < effective_threshold c)) := by
  have hpos : 0 < effective_threshold c := by
    unfold effective_threshold ALIGNMENT_THRESHOLD
    by_cases hc : 0 < c
    · rw [if_pos hc]
      exact div_pos (by norm_num) hc
    · rw [if_neg hc]
      norm_num
  refine ⟨rfl, ?_, ?_, ?_, ?_⟩
  · by_cases h1 : effective_threshold c < T ∧ effective_threshold c < S
    · simp [_aligned, h1]
    · have e : _aligned T S c ≠ (true, "bullish") := by
        unfold _aligned
        rw [if_neg h1]
        split <;> simp
      simp [e, h1]
  · by_cases h1 : effective_threshold c < T ∧ effective_threshold c < S
    · have hnb : ¬(T < -effective_threshold c ∧ S < -effective_threshold c) := by
        rintro ⟨hx, _⟩
        linarith [h1.1]
      simp [_aligned, h1, hnb]
    · by_cases h2 : T < -effective_threshold c ∧ S < -effective_threshold c
      · simp [_aligned, h1, h2]
      · simp [_aligned, h1, h2]
  · by_cases h1 : effective_threshold c < T ∧ effective_threshold c < S
    · simp [_aligned, h1]
    · by_cases h2 : T < -effective_threshold c ∧ S < -effective_threshold c
      · simp [_aligned, h1, h2]
      · simp [_aligned, h1, h2]
  · intro hc hc1
    have e : effective_threshold c = ALIGNMENT_THRESHOLD / c := by
      unfold effective_threshold
      rw [if_pos hc]
    have hAL : (0:ℚ) < ALIGNMENT_THRESHOLD := by norm_num [ALIGNMENT_THRESHOLD]
    constructor
    · rw [e, le_div_iff₀ hc]
      exact mul_le_of_le_one_right (le_of_lt hAL) hc1
    · intro hlt
      rw [e, lt_div_iff₀ hc]
      exact mul_lt_of_lt_one_right hAL hlt

/-- Witness for C1 at `T = S = 1`, `c = 1/2`: classified bullish, and the
effective threshold strictly exceeds `ALIGNMENT_THRESHOLD`. -/
theorem claim_C1_witness :
    _aligned 1 1 (1/2) = (true, "bullish") ∧
    ALIGNMENT_THRESHOLD ≤ effective_threshold (1/2) ∧
    ALIGNMENT_THRESHOLD < effective_threshold (1/2) := by
  have h := claim_C1 1 1 (1/2)
  have hthr : effective_threshold (1/2) < 1 ∧ effective_threshold (1/2) < 1 := by
    rw [h.1]
    norm_num [ALIGNMENT_THRESHOLD]
  have hq := h.2.2.2.2 (by norm_num) (by norm_num)
  exact ⟨h.2.1.mpr hthr, hq.1, hq.2 (by norm_num)⟩

/-! Section: Claim C2: the daily trade limiter under arbitrary call sequences -/

/-- One externally observable call to the limiter: `tryIncrement`
(`_increment_trade_count`) or `tradesRemaining` (`_trades_remaining`). -/
inductive LimiterOp
  | inc
  | query
deriving DecidableEq

/-- The engine state after one limiter call (discarding the returned value). -/
def limiter_step (today : Nat) (s : EngineState) : LimiterOp → EngineState
  | .inc => (increment_trade_count today s).2
  | .query => (trades_remaining today s).2

/-- The engine state after a sequence of limiter calls, all on date `today`. -/
def run_limiter (today : Nat) (s : EngineState) : List LimiterOp → EngineState
  | [] => s
  | op :: rest => run_limiter today (limiter_step today s op) rest

/-- How many `tryIncrement` calls in the sequence report success. -/
def limiter_successes (today : Nat) (s : EngineState) : List LimiterOp → Nat
  | [] => 0
  | op :: rest =>
    (match op with
     | .inc => if (increment_trade_count today s).1 then 1 else 0
     | .query => 0) + limiter_successes today (limiter_step today s op) rest

theorem limiter_step_query {today : Nat} {s : EngineState}
    (h : s.trade_counter_date = some today) :
    limiter_step today s .query = s := by
  simp [limiter_step, trades_remaining_snd, refresh_of_eq h]

theorem run_limiter_spec (today : Nat) :
    ∀ (ops : List LimiterOp) (s : EngineState),
      s.trade_counter_date = some today →
      (run_limiter today s ops).trade_counter_date = some today ∧
      (run_limiter today s ops).trade_count_today =
        s.trade_count_today + limiter_successes today s ops ∧
      (s.trade_count_today ≤ MAX_DAILY_TRADES →
        (run_limiter today s ops).trade_count_today ≤ MAX_DAILY_TRADES) := by
  intro ops
  induction ops with
  | nil =>
    intro s h
    exact ⟨h, by simp [run_limiter, limiter_successes], fun hle => hle⟩
  | cons op rest ih =>
    intro s h
    cases op with
    | query =>
      have hs : limiter_step today s .query = s := limiter_step_query h
      have := ih s h
      refine ⟨?_, ?_, ?_⟩
      · simpa [run_limiter, hs] using this.1
      · simpa [run_limiter, limiter_successes, hs] using this.2.1
      · intro hle
        simpa [run_limiter, hs] using this.2.2 hle
    | inc =>
      rcases Nat.lt_or_ge (refresh_daily_counter today s).trade_count_today MAX_DAILY_TRADES with hlt | hge
      · have hr : refresh_daily_counter today s = s := refresh_of_eq h
        rw [hr] at hlt
        have e : increment_trade_count today s =
            (true, { s with trade_count_today := s.trade_count_today + 1 }) := by
          have := @increment_of_lt today s (by rw [hr]; exact hlt)
          rwa [hr] at this
        have hstep : limiter_step today s .inc =
            { s with trade_count_today := s.trade_count_today + 1 } := by
          simp [limiter_step, e]
        have ih' := ih { s with trade_count_today := s.trade_count_today + 1 } (by simpa using h)
        refine ⟨?_, ?_, ?_⟩
        · simpa [run_limiter, hstep] using ih'.1
        · have := ih'.2.1
          simp [run_limiter, limiter_successes, hstep, e] at this ⊢
          omega
        · intro _
          have := ih'.2.2 (by simp; omega)
          simpa [run_limiter, hstep] using this
      · have hr : refresh_daily_counter today s = s := refresh_of_eq h
        rw [hr] at hge
        have e : increment_trade_count today s = (false, s) := by
          have := @increment_of_ge today s (by rw [hr]; exact hge)
          rwa [hr] at this
        have hstep : limiter_step today s .inc = s := by simp [limiter_step, e]
        have ih' := ih s h
        refine ⟨?_, ?_, ?_⟩
        · simpa [run_limiter, hstep] using ih'.1
        · have := ih'.2.1
          simp [run_limiter, limiter_successes, hstep, e] at this ⊢
          omega
        · intro hle
          simpa [run_limiter, hstep] using ih'.2.2 hle

/-- Claim C2: Within one calendar date the limiter never resets (the final
count is the initial count plus the number of successful increments); at
most 3 increments succeed from a fresh day; a failed `tryIncrement`
leaves the state exactly unchanged; after 3 successful increments from a
fresh day the 4th fails and `tradesRemaining` reports 0; and the first
call after a date change resets the count exactly once. -/
theorem claim_C2 (today : Nat) (s : EngineState) (ops : List LimiterOp) :
    (s.trade_counter_date = some today →
      (run_limiter today s ops).trade_counter_date = some today ∧
      (run_limiter today s ops).trade_count_today =
        s.trade_count_today + limiter_successes today s ops) ∧
    (s.trade_counter_date = some today → s.trade_count_today = 0 →
      limiter_successes today s ops ≤ MAX_DAILY_TRADES) ∧
    (∀ s' : EngineState, (increment_trade_count today s').1 = false →
      (increment_trade_count today s').2 = s') ∧
    (s.trade_counter_date = some today → s.trade_count_today = 0 →
      limiter_successes today s [.inc, .inc, .inc] = 3 ∧
      (increment_trade_count today (run_limiter today s [.inc, .inc, .inc])).1 = false ∧
      (trades_remaining today (run_limiter today s [.inc, .inc, .inc])).1 = 0) ∧
    (∀ op : LimiterOp, s.trade_counter_date ≠ some today →
      (limiter_step today s op).trade_counter_date = some today ∧
      (limiter_step today s op).trade_count_today =
        (match op with | .inc => 1 | .query => 0)) := by
  refine ⟨?_, ?_, ?_, ?_, ?_⟩
  · intro h
    exact ⟨(run_limiter_spec today ops s h).1, (run_limiter_spec today ops s h).2.1⟩
  · intro h h0
    have hs := run_limiter_spec today ops s h
    have := hs.2.2 (by omega)
    omega
  · intro s' h
    exact increment_false_state h
  · intro h h0
    obtain ⟨d, c, pk⟩ := s
    simp only at h h0
    subst h h0
    have e1 : increment_trade_count today ⟨some today, 0, pk⟩ =
        (true, ⟨some today, 1, pk⟩) := by
      simp [increment_trade_count, refresh_daily_counter, MAX_DAILY_TRADES]
    have e2 : increment_trade_count today ⟨some today, 1, pk⟩ =
        (true, ⟨some today, 2, pk⟩) := by
      simp [increment_trade_count, refresh_daily_counter, MAX_DAILY_TRADES]
    have e3 : increment_trade_count today ⟨some today, 2, pk⟩ =
        (true, ⟨some today, 3, pk⟩) := by
      simp [increment_trade_count, refresh_daily_counter, MAX_DAILY_TRADES]
    have e4 : increment_trade_count today ⟨some today, 3, pk⟩ =
        (false, ⟨some today, 3, pk⟩) := by
      simp [increment_trade_count, refresh_daily_counter, MAX_DAILY_TRADES]
    have hrun : run_limiter today ⟨some today, 0, pk⟩ [.inc, .inc, .inc] =
        ⟨some today, 3, pk⟩ := by
      simp [run_limiter, limiter_step, e1, e2, e3]
    refine ⟨?_, ?_, ?_⟩
    · simp [limiter_successes, limiter_step, e1, e2, e3]
    · rw [hrun, e4]
    · rw [hrun]
      simp [trades_remaining, refresh_daily_counter, MAX_DAILY_TRADES]
  · intro op h
    have hr := refresh_of_ne h
    cases op with
    | query =>
      constructor
      · simp [limiter_step, trades_remaining_snd, hr]
      · simp [limiter_step, trades_remaining_snd, hr]
    | inc =>
      have hlt : (refresh_daily_counter today s).trade_count_today < MAX_DAILY_TRADES := by
        rw [hr]
        simp [MAX_DAILY_TRADES]
      constructor
      · simp [limiter_step, increment_of_lt hlt, refresh_date]
      · simp [limiter_step, increment_of_lt hlt, hr]

/-- Witness for C2 on a concrete fresh day: date `0`, count `0`, four
increments attempted. -/
theorem claim_C2_witness :
    let s : EngineState := ⟨some 0, 0, fun _ => none⟩
    (run_limiter 0 s [.inc, .inc, .inc, .inc]).trade_counter_date = some 0 ∧
    limiter_successes 0 s [.inc, .inc, .inc, .inc] ≤ MAX_DAILY_TRADES ∧
    limiter_successes 0 s [.inc, .inc, .inc] = 3 ∧
    (increment_trade_count 0 (run_limiter 0 s [.inc, .inc, .inc])).1 = false ∧
    (trades_remaining 0 (run_limiter 0 s [.inc, .inc, .inc])).1 = 0 ∧
    (limiter_step 0 ⟨some 7, 2, fun _ => none⟩ .inc).trade_count_today = 1 := by
  intro s
  have h := claim_C2 0 s [.inc, .inc, .inc, .inc]
  have h3 := claim_C2 0 s [.inc, .inc, .inc]
  have h7 := claim_C2 0 ⟨some 7, 2, fun _ => none⟩ []
  have hch : ((⟨some 7, 2, fun _ => none⟩ : EngineState)).trade_counter_date ≠ some 0 := by
    simp
  exact ⟨(h.1 rfl).1, h.2.1 rfl rfl, (h3.2.2.2.1 rfl rfl).1, (h3.2.2.2.1 rfl rfl).2.1,
    (h3.2.2.2.1 rfl rfl).2.2, (h7.2.2.2.2 .inc hch).2⟩

/-! Section: Claim C3: the drawdown monitor -/

/-- Environment for the spec's drawdown boundary example: an open
position entered at 110 (so the running peak starts at 110) and the
given current price. -/
def boundaryEnv (current : ℚ) : Env :=
  { getPosition := fun _ => some { entry_price := 110 }
    currentPrice := fun _ => some current
    sentimentRisk := fun _ => some (0, false)
    technical := fun _ => .ok 0 }

/-- Claim C3: `_check_drawdown_sell` returns `false` without touching the
state when there is no position or no price; otherwise it stores
`peak = max(stored peak or entry price, current)` for the ticker (and
nothing else changes) and reports a sell iff the drawdown
`(peak - current)/peak` is at least `0.03`, boundary inclusive: with
peak 110, current 106.7 (exactly 3%) it fires, with current 106.8 it
does not. -/
theorem claim_C3 (env : Env) (s : EngineState) (ticker : String) :
    (env.getPosition ticker = none → check_drawdown_sell env s ticker = (false, s)) ∧
    (∀ pos, env.getPosition ticker = some pos → get_current_price env ticker = none →
      check_drawdown_sell env s ticker = (false, s)) ∧
    (∀ pos current, env.getPosition ticker = some pos →
      get_current_price env ticker = some current →
      (check_drawdown_sell env s ticker).2.peak_prices ticker =
        some (max ((s.peak_prices ticker).getD pos.entry_price) current) ∧
      (∀ t, t ≠ ticker → (check_drawdown_sell env s ticker).2.peak_prices t = s.peak_prices t) ∧
      (check_drawdown_sell env s ticker).2.trade_counter_date = s.trade_counter_date ∧
      (check_drawdown_sell env s ticker).2.trade_count_today = s.trade_count_today ∧
      ((check_drawdown_sell env s ticker).1 = true ↔
        DRAWDOWN_THRESHOLD ≤
          (max ((s.peak_prices ticker).getD pos.entry_price) current - current) /
            max ((s.peak_prices ticker).getD pos.entry_price) current)) ∧
    (check_drawdown_sell (boundaryEnv (1067/10)) freshState ticker).1 = true ∧
    (check_drawdown_sell (boundaryEnv (1068/10)) freshState ticker).1 = false := by
  have hm1 : max (110:ℚ) (1067/10) = 110 := max_eq_left (by norm_num)
  have hm2 : max (110:ℚ) (1068/10) = 110 := max_eq_left (by norm_num)
  refine ⟨?_, ?_, ?_, ?_, ?_⟩
  · intro h
    simp [check_drawdown_sell, h]
  · intro pos h1 h2
    simp [check_drawdown_sell, h1, h2]
  · intro pos current h1 h2
    refine ⟨?_, ?_, ?_, ?_, ?_⟩
    · simp [check_drawdown_sell, h1, h2]
    · intro t ht
      simp [check_drawdown_sell, h1, h2, ht]
    · simp [check_drawdown_sell, h1, h2]
    · simp [check_drawdown_sell, h1, h2]
    · simp [check_drawdown_sell, h1, h2]
  · simp only [check_drawdown_sell, boundaryEnv, get_current_price, freshState,
      optCase_some, Option.getD_none, DRAWDOWN_THRESHOLD, decide_eq_true_eq]
    rw [hm1]
    norm_num
  · simp only [check_drawdown_sell, boundaryEnv, get_current_price, freshState,
      optCase_some, Option.getD_none, DRAWDOWN_THRESHOLD, decide_eq_false_iff_not]
    rw [hm2]
    norm_num

/-- Witness for C3: with a stored position (entry 110) and price 100,
the stored peak becomes 110 and the sell check fires. -/
theorem claim_C3_witness :
    (check_drawdown_sell (boundaryEnv 100) freshState "ABC").2.peak_prices "ABC" =
      some 110 ∧
    (check_drawdown_sell (boundaryEnv 100) freshState "ABC").1 = true := by
  have h := (claim_C3 (boundaryEnv 100) freshState "ABC").2.2.1
    { entry_price := 110 } 100 rfl rfl
  have hm : max ((110:ℚ)) 100 = 110 := max_eq_left (by norm_num)
  constructor
  · have := h.1
    simpa [freshState, hm] using this
  · rw [h.2.2.2.2]
    simp only [freshState, Option.getD_none]
    rw [hm]
    norm_num [DRAWDOWN_THRESHOLD]

/-! Section: Branch lemmas for `evaluate` and its sections -/

theorem evaluate_quota {env : Env} {today : Nat} {ticker : String}
    {ch : Option String} {s0 : EngineState}
    (h : (trades_remaining today s0).1 = 0) :
    evaluate env today ticker ch s0 =
      ({ action := "HOLD", ticker := ticker, T_score := 0, S_score := 0,
         confidence_score := 1, aligned := false, daily_trades_left := 0,
         reason := "Daily trade limit (3) reached." },
       (trades_remaining today s0).2) := by
  simp [evaluate, h]

theorem evaluate_open_no_holding {env : Env} {today : Nat} {ticker : String}
    {ch : Option String} {s0 : EngineState}
    (h : (trades_remaining today s0).1 ≠ 0) (hh : optTruthy ch = none) :
    evaluate env today ticker ch s0 =
      evaluate_rest env today ticker none (trades_remaining today s0).1
        (trades_remaining today s0).2 := by
  simp [evaluate, h, hh]

theorem evaluate_dd_sell {env : Env} {today : Nat} {ticker hld : String}
    {ch : Option String} {s0 : EngineState}
    (h : (trades_remaining today s0).1 ≠ 0) (hh : optTruthy ch = some hld)
    (hdd : (check_drawdown_sell env (trades_remaining today s0).2 hld).1 = true)
    (hinc : (increment_trade_count today
      (check_drawdown_sell env (trades_remaining today s0).2 hld).2).1 = true) :
    evaluate env today ticker ch s0 =
      ({ action := "SELL", ticker := hld, T_score := 0, S_score := 0,
         confidence_score := 1, aligned := true,
         daily_trades_left := (trades_remaining today
           (increment_trade_count today
             (check_drawdown_sell env (trades_remaining today s0).2 hld).2).2).1,
         reason := "MIT Sloan: Position dropped >3% from peak. Sell triggered." },
       (trades_remaining today
         (increment_trade_count today
           (check_drawdown_sell env (trades_remaining today s0).2 hld).2).2).2) := by
  simp [evaluate, h, hh, hdd, hinc]

theorem evaluate_dd_blocked {env : Env} {today : Nat} {ticker hld : String}
    {ch : Option String} {s0 : EngineState}
    (h : (trades_remaining today s0).1 ≠ 0) (hh : optTruthy ch = some hld)
    (hdd : (check_drawdown_sell env (trades_remaining today s0).2 hld).1 = true)
    (hinc : (increment_trade_count today
      (check_drawdown_sell env (trades_remaining today s0).2 hld).2).1 = false) :
    evaluate env today ticker ch s0 =
      ({ action := "HOLD", ticker := hld, T_score := 0, S_score := 0,
         confidence_score := 1, aligned := true, daily_trades_left := 0,
         reason := "Drawdown SELL required but daily limit reached." },
       (increment_trade_count today
         (check_drawdown_sell env (trades_remaining today s0).2 hld).2).2) := by
  simp [evaluate, h, hh, hdd, hinc]

theorem evaluate_dd_false {env : Env} {today : Nat} {ticker hld : String}
    {ch : Option String} {s0 : EngineState}
    (h : (trades_remaining today s0).1 ≠ 0) (hh : optTruthy ch = some hld)
    (hdd : (check_drawdown_sell env (trades_remaining today s0).2 hld).1 = false) :
    evaluate env today ticker ch s0 =
      evaluate_rest env today ticker (some hld) (trades_remaining today s0).1
        (check_drawdown_sell env (trades_remaining today s0).2 hld).2 := by
  simp [evaluate, h, hh, hdd]

theorem evaluate_rest_none {env : Env} {today : Nat} {ticker : String}
    {remaining : Nat} {s : EngineState} :
    evaluate_rest env today ticker none remaining s =
      bullish_check env today ticker remaining (candidate_S env ticker)
        (candidate_confidence env ticker) s := rfl

theorem evaluate_rest_not_bearish {env : Env} {today : Nat} {ticker hld : String}
    {remaining : Nat} {s : EngineState}
    (hnb : ¬((_aligned (holding_T env hld) (holding_SC env hld).1 (holding_SC env hld).2).1 = true ∧
             (_aligned (holding_T env hld) (holding_SC env hld).1 (holding_SC env hld).2).2 = "bearish")) :
    evaluate_rest env today ticker (some hld) remaining s =
      bullish_check env today ticker remaining (candidate_S env ticker)
        (candidate_confidence env ticker) s := by
  simp only [evaluate_rest, optCase_some]
  rw [if_neg hnb]

theorem evaluate_rest_bearish_sell {env : Env} {today : Nat} {ticker hld : String}
    {remaining : Nat} {s : EngineState}
    (hb : (_aligned (holding_T env hld) (holding_SC env hld).1 (holding_SC env hld).2).1 = true ∧
          (_aligned (holding_T env hld) (holding_SC env hld).1 (holding_SC env hld).2).2 = "bearish")
    (hinc : (increment_trade_count today s).1 = true) :
    evaluate_rest env today ticker (some hld) remaining s =
      ({ action := "SELL", ticker := hld, T_score := holding_T env hld,
         S_score := (holding_SC env hld).1, confidence_score := (holding_SC env hld).2,
         aligned := true,
         daily_trades_left := (trades_remaining today (increment_trade_count today s).2).1,
         reason := "Downside risk detected; rebalancing." },
       (trades_remaining today (increment_trade_count today s).2).2) := by
  simp only [evaluate_rest, optCase_some]
  rw [if_pos hb, if_pos hinc]

theorem evaluate_rest_bearish_blocked {env : Env} {today : Nat} {ticker hld : String}
    {remaining : Nat} {s : EngineState}
    (hb : (_aligned (holding_T env hld) (holding_SC env hld).1 (holding_SC env hld).2).1 = true ∧
          (_aligned (holding_T env hld) (holding_SC env hld).1 (holding_SC env hld).2).2 = "bearish")
    (hinc : (increment_trade_count today s).1 = false) :
    evaluate_rest env today ticker (some hld) remaining s =
      ({ action := "HOLD", ticker := hld, T_score := holding_T env hld,
         S_score := (holding_SC env hld).1, confidence_score := (holding_SC env hld).2,
         aligned := true, daily_trades_left := 0,
         reason := "Downside risk but daily limit reached." },
       (increment_trade_count today s).2) := by
  simp only [evaluate_rest, optCase_some]
  rw [if_pos hb]
  simp [hinc]

theorem bullish_check_error {env : Env} {today : Nat} {ticker : String}
    {remaining : Nat} {S confidence : ℚ} {s : EngineState} {e : String}
    (he : env.technical ticker = .error e) :
    bullish_check env today ticker remaining S confidence s =
      ({ action := "HOLD", ticker := ticker, T_score := 0, S_score := S,
         confidence_score := confidence, aligned := false,
         daily_trades_left := remaining,
         reason := "Technical analysis failed: " ++ e }, s) := by
  simp [bullish_check, he]

theorem bullish_check_buy {env : Env} {today : Nat} {ticker : String}
    {remaining : Nat} {S confidence T : ℚ} {s : EngineState}
    (hok : env.technical ticker = .ok T)
    (hb : (_aligned T S confidence).1 = true ∧ (_aligned T S confidence).2 = "bullish")
    (hinc : (increment_trade_count today s).1 = true) :
    bullish_check env today ticker remaining S confidence s =
      ({ action := "BUY", ticker := ticker, T_score := T, S_score := S,
         confidence_score := confidence, aligned := true,
         daily_trades_left := (trades_remaining today (increment_trade_count today s).2).1,
         reason := "Technical and sentiment aligned bullish."
           ++ (if confidence < 1 then " (Confidence reduced: Animal Spirits risk)" else "") },
       (trades_remaining today (increment_trade_count today s).2).2) := by
  simp only [bullish_check, hok, exceptCase_ok]
  rw [if_pos hb, if_pos hinc]

theorem bullish_check_buy_blocked {env : Env} {today : Nat} {ticker : String}
    {remaining : Nat} {S confidence T : ℚ} {s : EngineState}
    (hok : env.technical ticker = .ok T)
    (hb : (_aligned T S confidence).1 = true ∧ (_aligned T S confidence).2 = "bullish")
    (hinc : (increment_trade_count today s).1 = false) :
    bullish_check env today ticker remaining S confidence s =
      ({ action := "HOLD", ticker := ticker, T_score := T, S_score := S,
         confidence_score := confidence, aligned := (_aligned T S confidence).1,
         daily_trades_left := remaining,
         reason := "T and S not aligned for trade."
           ++ (if confidence < 1 then " (Confidence reduced: enflasyon/belirsizlik in news)" else "") },
       (increment_trade_count today s).2) := by
  simp only [bullish_check, hok, exceptCase_ok]
  rw [if_pos hb]
  simp [hinc]

theorem bullish_check_not_bullish {env : Env} {today : Nat} {ticker : String}
    {remaining : Nat} {S confidence T : ℚ} {s : EngineState}
    (hok : env.technical ticker = .ok T)
    (hnb : ¬((_aligned T S confidence).1 = true ∧ (_aligned T S confidence).2 = "bullish")) :
    bullish_check env today ticker remaining S confidence s =
      ({ action := "HOLD", ticker := ticker, T_score := T, S_score := S,
         confidence_score := confidence, aligned := (_aligned T S confidence).1,
         daily_trades_left := remaining,
         reason := "T and S not aligned for trade."
           ++ (if confidence < 1 then " (Confidence reduced: enflasyon/belirsizlik in news)" else "") },
       s) := by
  simp only [bullish_check, hok, exceptCase_ok]
  rw [if_neg hnb]

/-! Section: Counter-preservation helpers -/

theorem check_drawdown_date (env : Env) (s : EngineState) (t : String) :
    (check_drawdown_sell env s t).2.trade_counter_date = s.trade_counter_date := by
  unfold check_drawdown_sell
  cases hp : env.getPosition t
  · simp
  · cases hc : get_current_price env t <;> simp

theorem check_drawdown_count (env : Env) (s : EngineState) (t : String) :
    (check_drawdown_sell env s t).2.trade_count_today = s.trade_count_today := by
  unfold check_drawdown_sell
  cases hp : env.getPosition t
  · simp
  · cases hc : get_current_price env t <;> simp

theorem increment_true_of_low {today : Nat} {s : EngineState}
    (hd : s.trade_counter_date = some today)
    (hc : s.trade_count_today < MAX_DAILY_TRADES) :
    (increment_trade_count today s).1 = true := by
  rw [increment_of_lt (by rw [refresh_of_eq hd]; exact hc)]

theorem trades_remaining_pos_count {today : Nat} {s : EngineState}
    (h : (trades_remaining today s).1 ≠ 0) :
    (refresh_daily_counter today s).trade_count_today < MAX_DAILY_TRADES := by
  rw [trades_remaining_fst] at h
  omega

theorem check_drawdown_congr {env env' : Env} (s : EngineState) (t : String)
    (h1 : env'.getPosition = env.getPosition)
    (h2 : env'.currentPrice = env.currentPrice) :
    check_drawdown_sell env' s t = check_drawdown_sell env s t := by
  simp [check_drawdown_sell, get_current_price, h1, h2]

/-! Section: Claim C5: the quota gate -/

/-- Claim C5: When no trades remain, `evaluate` returns the quota-exhausted
HOLD for the input ticker with zero scores, confidence 1, `aligned=false`
and zero trades left, independently of the providers and without touching
the peak map. -/
theorem claim_C5 (env env' : Env) (today : Nat) (ticker : String)
    (ch : Option String) (s : EngineState)
    (h : (trades_remaining today s).1 = 0) :
    evaluate env today ticker ch s =
      ({ action := "HOLD", ticker := ticker, T_score := 0, S_score := 0,
         confidence_score := 1, aligned := false, daily_trades_left := 0,
         reason := "Daily trade limit (3) reached." },
       (trades_remaining today s).2) ∧
    evaluate env' today ticker ch s = evaluate env today ticker ch s ∧
    (evaluate env today ticker ch s).2.peak_prices = s.peak_prices := by
  have e := @evaluate_quota env today ticker ch s h
  have e' := @evaluate_quota env' today ticker ch s h
  refine ⟨e, by rw [e, e'], ?_⟩
  rw [e]
  simp [trades_remaining_snd, refresh_peak]

/-- A maximally failing environment: no position, no price, raising
sentiment and technical providers. -/
def envAllFail : Env :=
  { getPosition := fun _ => none
    currentPrice := fun _ => none
    sentimentRisk := fun _ => none
    technical := fun _ => .error "boom" }

/-- Witness for C5: with the daily count at 3, `evaluate` ignores the
environment entirely and reports the quota HOLD. -/
theorem claim_C5_witness :
    (evaluate (boundaryEnv 100) 0 "XYZ" (some "AAA") ⟨some 0, 3, fun _ => none⟩).1 =
      { action := "HOLD", ticker := "XYZ", T_score := 0, S_score := 0,
        confidence_score := 1, aligned := false, daily_trades_left := 0,
        reason := "Daily trade limit (3) reached." } ∧
    evaluate envAllFail 0 "XYZ" (some "AAA") ⟨some 0, 3, fun _ => none⟩ =
      evaluate (boundaryEnv 100) 0 "XYZ" (some "AAA") ⟨some 0, 3, fun _ => none⟩ := by
  have h0 : (trades_remaining 0 (⟨some 0, 3, fun _ => none⟩ : EngineState)).1 = 0 := by
    simp [trades_remaining, refresh_daily_counter, MAX_DAILY_TRADES]
  have hc := claim_C5 (boundaryEnv 100) envAllFail 0 "XYZ" (some "AAA")
    ⟨some 0, 3, fun _ => none⟩ h0
  exact ⟨by rw [hc.1], hc.2.1⟩

/-! Section: Claim C4: the stop-loss rule on the holding -/

/-- Claim C4: With the quota gate passed, a (truthy) current holding and a
firing drawdown check: a successful increment yields the stop-loss SELL
for the holding (`aligned=true`, updated quota); a failed increment
yields the deferred-stop-loss HOLD for the holding (`aligned=true`,
`daily_trades_left=0`, the quota-exhausted stop-loss reason) and no SELL;
and in either case the outcome is independent of the sentiment/technical
providers (no provider call is made for the candidate). -/
theorem claim_C4 (env : Env) (today : Nat) (ticker hld : String)
    (ch : Option String) (s : EngineState)
    (hrem : (trades_remaining today s).1 ≠ 0)
    (hh : optTruthy ch = some hld)
    (hdd : (check_drawdown_sell env (trades_remaining today s).2 hld).1 = true) :
    ((increment_trade_count today
        (check_drawdown_sell env (trades_remaining today s).2 hld).2).1 = true →
      evaluate env today ticker ch s =
        ({ action := "SELL", ticker := hld, T_score := 0, S_score := 0,
           confidence_score := 1, aligned := true,
           daily_trades_left := (trades_remaining today
             (increment_trade_count today
               (check_drawdown_sell env (trades_remaining today s).2 hld).2).2).1,
           reason := "MIT Sloan: Position dropped >3% from peak. Sell triggered." },
         (trades_remaining today
           (increment_trade_count today
             (check_drawdown_sell env (trades_remaining today s).2 hld).2).2).2)) ∧
    ((increment_trade_count today
        (check_drawdown_sell env (trades_remaining today s).2 hld).2).1 = false →
      evaluate env today ticker ch s =
        ({ action := "HOLD", ticker := hld, T_score := 0, S_score := 0,
           confidence_score := 1, aligned := true, daily_trades_left := 0,
           reason := "Drawdown SELL required but daily limit reached." },
         (increment_trade_count today
           (check_drawdown_sell env (trades_remaining today s).2 hld).2).2)) ∧
    (∀ env' : Env, env'.getPosition = env.getPosition →
      env'.currentPrice = env.currentPrice →
      evaluate env' today ticker ch s = evaluate env today ticker ch s) := by
  refine ⟨fun hinc => evaluate_dd_sell hrem hh hdd hinc,
          fun hinc => evaluate_dd_blocked hrem hh hdd hinc, ?_⟩
  intro env' h1 h2
  have hcg : check_drawdown_sell env' (trades_remaining today s).2 hld =
      check_drawdown_sell env (trades_remaining today s).2 hld :=
    check_drawdown_congr _ _ h1 h2
  cases hb : (increment_trade_count today
      (check_drawdown_sell env (trades_remaining today s).2 hld).2).1 with
  | true =>
    rw [evaluate_dd_sell hrem hh (by rw [hcg]; exact hdd) (by rw [hcg]; exact hb),
        evaluate_dd_sell hrem hh hdd hb, hcg]
  | false =>
    rw [evaluate_dd_blocked hrem hh (by rw [hcg]; exact hdd) (by rw [hcg]; exact hb),
        evaluate_dd_blocked hrem hh hdd hb, hcg]

/-- Witness for C4: a held position entered at 110 now trading at 100
(a 9.1% drawdown) triggers the stop-loss SELL with two trades left. -/
theorem claim_C4_witness :
    (evaluate (boundaryEnv 100) 0 "XYZ" (some "AAA") freshState).1.action = "SELL" ∧
    (evaluate (boundaryEnv 100) 0 "XYZ" (some "AAA") freshState).1.ticker = "AAA" ∧
    (evaluate (boundaryEnv 100) 0 "XYZ" (some "AAA") freshState).1.daily_trades_left = 2 := by
  have hrem : (trades_remaining 0 freshState).1 ≠ 0 := by
    simp [trades_remaining, refresh_daily_counter, freshState, MAX_DAILY_TRADES]
  have hh : optTruthy (some "AAA") = some "AAA" := by simp [optTruthy]
  have hm : max ((110:ℚ)) 100 = 110 := max_eq_left (by norm_num)
  have hs1 : (trades_remaining 0 freshState).2 =
      (⟨some 0, 0, fun _ => none⟩ : EngineState) := by
    simp [trades_remaining_snd, refresh_daily_counter, freshState]
  have hdd : (check_drawdown_sell (boundaryEnv 100) (trades_remaining 0 freshState).2 "AAA").1 = true := by
    rw [hs1]
    simp only [check_drawdown_sell, boundaryEnv, get_current_price, optCase_some,
      Option.getD_none, DRAWDOWN_THRESHOLD, decide_eq_true_eq]
    rw [hm]
    norm_num
  have hdate : (check_drawdown_sell (boundaryEnv 100) (trades_remaining 0 freshState).2 "AAA").2.trade_counter_date = some 0 := by
    rw [check_drawdown_date, hs1]
  have hcount : (check_drawdown_sell (boundaryEnv 100) (trades_remaining 0 freshState).2 "AAA").2.trade_count_today = 0 := by
    rw [check_drawdown_count, hs1]
  have hinc : (increment_trade_count 0
      (check_drawdown_sell (boundaryEnv 100) (trades_remaining 0 freshState).2 "AAA").2).1 = true :=
    increment_true_of_low hdate (by rw [hcount]; simp [MAX_DAILY_TRADES])
  have h4 := (claim_C4 (boundaryEnv 100) 0 "XYZ" "AAA" (some "AAA") freshState hrem hh hdd).1 hinc
  have hleft : (trades_remaining 0
      (increment_trade_count 0
        (check_drawdown_sell (boundaryEnv 100) (trades_remaining 0 freshState).2 "AAA").2).2).1 = 2 := by
    rw [trades_remaining_fst]
    rw [increment_of_lt (by rw [refresh_of_eq hdate, hcount]; simp [MAX_DAILY_TRADES])]
    rw [refresh_of_eq]
    · simp [refresh_of_eq hdate, hcount, MAX_DAILY_TRADES]
    · simp [refresh_of_eq hdate, hdate]
  rw [h4]
  exact ⟨rfl, rfl, hleft⟩

/-! Section: Path-walking helpers for `evaluate` -/

theorem trades_remaining_state {today : Nat} {y : EngineState}
    (hd : y.trade_counter_date = some today) :
    (trades_remaining today y).2 = y := by
  rw [trades_remaining_snd, refresh_of_eq hd]

theorem increment_succ {today : Nat} {x : EngineState}
    (hd : x.trade_counter_date = some today)
    (hc : x.trade_count_today < MAX_DAILY_TRADES) :
    (increment_trade_count today x).2 =
      { x with trade_count_today := x.trade_count_today + 1 } := by
  rw [increment_of_lt (by rw [refresh_of_eq hd]; exact hc), refresh_of_eq hd]

theorem bullish_check_left {env : Env} {today : Nat} {ticker : String}
    {remaining : Nat} {S confidence : ℚ} {s : EngineState}
    (hd : s.trade_counter_date = some today)
    (hc : s.trade_count_today < MAX_DAILY_TRADES) :
    (bullish_check env today ticker remaining S confidence s).1.action = "HOLD" →
    (bullish_check env today ticker remaining S confidence s).1.daily_trades_left = remaining := by
  cases he : env.technical ticker with
  | error e =>
    rw [bullish_check_error he]
    intro
    rfl
  | ok T =>
    by_cases hb : (_aligned T S confidence).1 = true ∧ (_aligned T S confidence).2 = "bullish"
    · rw [bullish_check_buy he hb (increment_true_of_low hd hc)]
      intro habs
      simp at habs
    · rw [bullish_check_not_bullish he hb]
      intro
      rfl

theorem evaluate_rest_left {env : Env} {today : Nat} {ticker : String}
    {holding : Option String} {remaining : Nat} {s : EngineState}
    (hd : s.trade_counter_date = some today)
    (hc : s.trade_count_today < MAX_DAILY_TRADES) :
    (evaluate_rest env today ticker holding remaining s).1.action = "HOLD" →
    (evaluate_rest env today ticker holding remaining s).1.daily_trades_left = remaining := by
  cases holding with
  | none =>
    rw [evaluate_rest_none]
    exact bullish_check_left hd hc
  | some hld =>
    by_cases hb : (_aligned (holding_T env hld) (holding_SC env hld).1 (holding_SC env hld).2).1 = true ∧
        (_aligned (holding_T env hld) (holding_SC env hld).1 (holding_SC env hld).2).2 = "bearish"
    · rw [evaluate_rest_bearish_sell hb (increment_true_of_low hd hc)]
      intro habs
      simp at habs
    · rw [evaluate_rest_not_bearish hb]
      exact bullish_check_left hd hc

theorem bullish_check_count {env : Env} {today : Nat} {ticker : String}
    {remaining : Nat} {S confidence : ℚ} {s : EngineState}
    (hd : s.trade_counter_date = some today)
    (hc : s.trade_count_today < MAX_DAILY_TRADES) :
    (bullish_check env today ticker remaining S confidence s).2.trade_count_today =
      s.trade_count_today +
        (if (bullish_check env today ticker remaining S confidence s).1.action = "BUY" ∨
            (bullish_check env today ticker remaining S confidence s).1.action = "SELL"
         then 1 else 0) := by
  cases he : env.technical ticker with
  | error e =>
    rw [bullish_check_error he]
    simp
  | ok T =>
    by_cases hb : (_aligned T S confidence).1 = true ∧ (_aligned T S confidence).2 = "bullish"
    · rw [bullish_check_buy he hb (increment_true_of_low hd hc)]
      have hr2 := increment_succ hd hc
      have hd2 : (increment_trade_count today s).2.trade_counter_date = some today := by
        rw [hr2]
        exact hd
      rw [trades_remaining_state hd2, hr2]
      simp
    · rw [bullish_check_not_bullish he hb]
      simp

theorem evaluate_rest_count {env : Env} {today : Nat} {ticker : String}
    {holding : Option String} {remaining : Nat} {s : EngineState}
    (hd : s.trade_counter_date = some today)
    (hc : s.trade_count_today < MAX_DAILY_TRADES) :
    (evaluate_rest env today ticker holding remaining s).2.trade_count_today =
      s.trade_count_today +
        (if (evaluate_rest env today ticker holding remaining s).1.action = "BUY" ∨
            (evaluate_rest env today ticker holding remaining s).1.action = "SELL"
         then 1 else 0) := by
  cases holding with
  | none =>
    rw [evaluate_rest_none]
    exact bullish_check_count hd hc
  | some hld =>
    by_cases hb : (_aligned (holding_T env hld) (holding_SC env hld).1 (holding_SC env hld).2).1 = true ∧
        (_aligned (holding_T env hld) (holding_SC env hld).1 (holding_SC env hld).2).2 = "bearish"
    · rw [evaluate_rest_bearish_sell hb (increment_true_of_low hd hc)]
      have hr2 := increment_succ hd hc
      have hd2 : (increment_trade_count today s).2.trade_counter_date = some today := by
        rw [hr2]
        exact hd
      rw [trades_remaining_state hd2, hr2]
      simp
    · rw [evaluate_rest_not_bearish hb]
      exact bullish_check_count hd hc

/-! Section: Claim C9: with the gate passed, internal increments cannot fail -/

/-- Claim C9: Holding the calendar date fixed for the whole call, once the
quota gate passes every internal `tryIncrement` succeeds (both at the
state seen by the stop-loss branch, for any holding, and at the state
seen by the downside/bullish branches), so the three limit-reached
failure branches are unreachable; consequently any HOLD the call emits
reports the full entry quota, never the blocked branches' zero. -/
theorem claim_C9 (env : Env) (today : Nat) (ticker : String)
    (ch : Option String) (s : EngineState)
    (hrem : (trades_remaining today s).1 ≠ 0) :
    (∀ hld : String,
      (increment_trade_count today
        (check_drawdown_sell env (trades_remaining today s).2 hld).2).1 = true) ∧
    (increment_trade_count today (trades_remaining today s).2).1 = true ∧
    ((evaluate env today ticker ch s).1.action = "HOLD" →
      (evaluate env today ticker ch s).1.daily_trades_left = (trades_remaining today s).1) := by
  have hc0 : (refresh_daily_counter today s).trade_count_today < MAX_DAILY_TRADES :=
    trades_remaining_pos_count hrem
  have hd1 : (trades_remaining today s).2.trade_counter_date = some today := by
    rw [trades_remaining_snd]
    exact refresh_date today s
  have hc1 : (trades_remaining today s).2.trade_count_today < MAX_DAILY_TRADES := by
    rw [trades_remaining_snd]
    exact hc0
  refine ⟨?_, ?_, ?_⟩
  · intro hld
    exact increment_true_of_low
      (by rw [check_drawdown_date]; exact hd1)
      (by rw [check_drawdown_count]; exact hc1)
  · exact increment_true_of_low hd1 hc1
  · cases hoth : optTruthy ch with
    | none =>
      rw [evaluate_open_no_holding hrem hoth]
      exact evaluate_rest_left hd1 hc1
    | some hld =>
      have hd2 : (check_drawdown_sell env (trades_remaining today s).2 hld).2.trade_counter_date = some today := by
        rw [check_drawdown_date]
        exact hd1
      have hc2 : (check_drawdown_sell env (trades_remaining today s).2 hld).2.trade_count_today < MAX_DAILY_TRADES := by
        rw [check_drawdown_count]
        exact hc1
      cases hdd : (check_drawdown_sell env (trades_remaining today s).2 hld).1 with
      | true =>
        have hinc := increment_true_of_low hd2 hc2
        rw [evaluate_dd_sell hrem hoth hdd hinc]
        intro habs
        simp at habs
      | false =>
        rw [evaluate_dd_false hrem hoth hdd]
        exact evaluate_rest_left hd2 hc2

/-- Witness for C9 at a concrete state with the gate passed (fresh day,
failing providers): the HOLD reports the full quota of 3. -/
theorem claim_C9_witness :
    (increment_trade_count 0 (trades_remaining 0 freshState).2).1 = true ∧
    ((evaluate envAllFail 0 "XYZ" none freshState).1.action = "HOLD" →
      (evaluate envAllFail 0 "XYZ" none freshState).1.daily_trades_left =
        (trades_remaining 0 freshState).1) := by
  have hrem : (trades_remaining 0 freshState).1 ≠ 0 := by
    simp [trades_remaining, refresh_daily_counter, freshState, MAX_DAILY_TRADES]
  have h := claim_C9 envAllFail 0 "XYZ" none freshState hrem
  exact ⟨h.2.1, h.2.2⟩

/-! Section: Claim C10: each `evaluate` call consumes quota exactly for trades -/

/-- Claim C10: Within one calendar date, an `evaluate` call increases the
daily trade count (relative to the rolled-over entry count) by exactly 1
when it returns BUY or SELL and by 0 when it returns HOLD; in particular
it never consumes more than one unit of quota. -/
theorem claim_C10 (env : Env) (today : Nat) (ticker : String)
    (ch : Option String) (s : EngineState) :
    (evaluate env today ticker ch s).2.trade_count_today =
      (refresh_daily_counter today s).trade_count_today +
        (if (evaluate env today ticker ch s).1.action = "BUY" ∨
            (evaluate env today ticker ch s).1.action = "SELL" then 1 else 0) ∧
    (evaluate env today ticker ch s).2.trade_count_today ≤
      (refresh_daily_counter today s).trade_count_today + 1 := by
  have hd1 : (trades_remaining today s).2.trade_counter_date = some today := by
    rw [trades_remaining_snd]
    exact refresh_date today s
  have hmain : (evaluate env today ticker ch s).2.trade_count_today =
      (refresh_daily_counter today s).trade_count_today +
        (if (evaluate env today ticker ch s).1.action = "BUY" ∨
            (evaluate env today ticker ch s).1.action = "SELL" then 1 else 0) := by
    by_cases hq : (trades_remaining today s).1 = 0
    · rw [evaluate_quota hq]
      simp [trades_remaining_snd]
    · have hc0 : (refresh_daily_counter today s).trade_count_today < MAX_DAILY_TRADES :=
        trades_remaining_pos_count hq
      have hc1 : (trades_remaining today s).2.trade_count_today < MAX_DAILY_TRADES := by
        rw [trades_remaining_snd]
        exact hc0
      cases hoth : optTruthy ch with
      | none =>
        rw [evaluate_open_no_holding hq hoth]
        have := @evaluate_rest_count env today ticker none (trades_remaining today s).1
          (trades_remaining today s).2 hd1 hc1
        rw [this, trades_remaining_snd]
      | some hld =>
        have hd2 : (check_drawdown_sell env (trades_remaining today s).2 hld).2.trade_counter_date = some today := by
          rw [check_drawdown_date]
          exact hd1
        have hc2 : (check_drawdown_sell env (trades_remaining today s).2 hld).2.trade_count_today < MAX_DAILY_TRADES := by
          rw [check_drawdown_count]
          exact hc1
        cases hdd : (check_drawdown_sell env (trades_remaining today s).2 hld).1 with
        | true =>
          have hinc := increment_true_of_low hd2 hc2
          rw [evaluate_dd_sell hq hoth hdd hinc]
          have hr2 := increment_succ hd2 hc2
          have hd3 : (increment_trade_count today
              (check_drawdown_sell env (trades_remaining today s).2 hld).2).2.trade_counter_date = some today := by
            rw [hr2]
            exact hd2
          rw [trades_remaining_state hd3, hr2]
          simp [check_drawdown_count, trades_remaining_snd]
        | false =>
          rw [evaluate_dd_false hq hoth hdd]
          have := @evaluate_rest_count env today ticker (some hld) (trades_remaining today s).1
            (check_drawdown_sell env (trades_remaining today s).2 hld).2 hd2 hc2
          rw [this, check_drawdown_count, trades_remaining_snd]
  refine ⟨hmain, ?_⟩
  rw [hmain]
  split <;> omega

/-! Section: Environment congruence: `evaluate` only observes the providers
through the position/price oracles, the candidate's technical result,
and the derived score values -/

theorem bullish_check_congr {env₁ env₂ : Env} {ticker : String}
    (ht : env₁.technical ticker = env₂.technical ticker) (today : Nat) :
    ∀ (remaining : Nat) (S confidence : ℚ) (s : EngineState),
      bullish_check env₁ today ticker remaining S confidence s =
        bullish_check env₂ today ticker remaining S confidence s := by
  intro remaining S confidence s
  unfold bullish_check
  rw [ht]

theorem evaluate_rest_congr {env₁ env₂ : Env} {ticker : String}
    (hcs : candidate_S env₁ ticker = candidate_S env₂ ticker)
    (hcc : candidate_confidence env₁ ticker = candidate_confidence env₂ ticker)
    (hT : ∀ x, holding_T env₁ x = holding_T env₂ x)
    (hSC : ∀ x, holding_SC env₁ x = holding_SC env₂ x)
    (ht : env₁.technical ticker = env₂.technical ticker) (today : Nat) :
    ∀ (holding : Option String) (remaining : Nat) (s : EngineState),
      evaluate_rest env₁ today ticker holding remaining s =
        evaluate_rest env₂ today ticker holding remaining s := by
  intro holding remaining s
  cases holding with
  | none =>
    rw [evaluate_rest_none, evaluate_rest_none, hcs, hcc, bullish_check_congr ht]
  | some hld =>
    unfold evaluate_rest
    simp only [optCase_some]
    rw [hcs, hcc, hT hld, hSC hld, bullish_check_congr ht]

theorem evaluate_env_congr {env₁ env₂ : Env} {ticker : String}
    (hp : env₁.getPosition = env₂.getPosition)
    (hc : env₁.currentPrice = env₂.currentPrice)
    (hcs : candidate_S env₁ ticker = candidate_S env₂ ticker)
    (hcc : candidate_confidence env₁ ticker = candidate_confidence env₂ ticker)
    (hT : ∀ x, holding_T env₁ x = holding_T env₂ x)
    (hSC : ∀ x, holding_SC env₁ x = holding_SC env₂ x)
    (ht : env₁.technical ticker = env₂.technical ticker)
    (today : Nat) (ch : Option String) (s : EngineState) :
    evaluate env₁ today ticker ch s = evaluate env₂ today ticker ch s := by
  by_cases hq : (trades_remaining today s).1 = 0
  · rw [evaluate_quota hq, evaluate_quota hq]
  · cases hoth : optTruthy ch with
    | none =>
      rw [evaluate_open_no_holding hq hoth, evaluate_open_no_holding hq hoth,
        evaluate_rest_congr hcs hcc hT hSC ht]
    | some hld =>
      have hcg : check_drawdown_sell env₁ (trades_remaining today s).2 hld =
          check_drawdown_sell env₂ (trades_remaining today s).2 hld :=
        check_drawdown_congr _ _ hp hc
      cases hdd : (check_drawdown_sell env₂ (trades_remaining today s).2 hld).1 with
      | true =>
        have hdd₁ : (check_drawdown_sell env₁ (trades_remaining today s).2 hld).1 = true := by
          rw [hcg]
          exact hdd
        cases hinc : (increment_trade_count today
            (check_drawdown_sell env₂ (trades_remaining today s).2 hld).2).1 with
        | true =>
          have hinc₁ : (increment_trade_count today
              (check_drawdown_sell env₁ (trades_remaining today s).2 hld).2).1 = true := by
            rw [hcg]
            exact hinc
          rw [evaluate_dd_sell hq hoth hdd₁ hinc₁, evaluate_dd_sell hq hoth hdd hinc, hcg]
        | false =>
          have hinc₁ : (increment_trade_count today
              (check_drawdown_sell env₁ (trades_remaining today s).2 hld).2).1 = false := by
            rw [hcg]
            exact hinc
          rw [evaluate_dd_blocked hq hoth hdd₁ hinc₁, evaluate_dd_blocked hq hoth hdd hinc, hcg]
      | false =>
        have hdd₁ : (check_drawdown_sell env₁ (trades_remaining today s).2 hld).1 = false := by
          rw [hcg]
          exact hdd
        rw [evaluate_dd_false hq hoth hdd₁, evaluate_dd_false hq hoth hdd, hcg,
          evaluate_rest_congr hcs hcc hT hSC ht]

/-! Section: Claim C8: asymmetric provider-failure handling -/

/-- Claim C8: A raised technical fetch for the candidate is terminal for
the bullish path: `evaluate` (and the bullish section itself) returns a
HOLD for the candidate carrying the failure message, `T_score = 0`,
`aligned = false`, and the candidate's already-computed sentiment and
confidence.  By contrast a raised technical fetch for the *holding* is
recovered by defaulting its score to 0, and a raised sentiment fetch is
recovered as `(0, no risk)`: replacing either failure by its default
value leaves `evaluate` unchanged. -/
theorem claim_C8 (env : Env) (today : Nat) (ticker hld msg : String)
    (ch : Option String) (s : EngineState) :
    (∀ (remaining : Nat) (S confidence : ℚ) (s' : EngineState),
      env.technical ticker = .error msg →
      bullish_check env today ticker remaining S confidence s' =
        ({ action := "HOLD", ticker := ticker, T_score := 0, S_score := S,
           confidence_score := confidence, aligned := false,
           daily_trades_left := remaining,
           reason := "Technical analysis failed: " ++ msg }, s')) ∧
    ((trades_remaining today s).1 ≠ 0 → optTruthy ch = none →
      env.technical ticker = .error msg →
      evaluate env today ticker ch s =
        ({ action := "HOLD", ticker := ticker, T_score := 0,
           S_score := candidate_S env ticker,
           confidence_score := candidate_confidence env ticker, aligned := false,
           daily_trades_left := (trades_remaining today s).1,
           reason := "Technical analysis failed: " ++ msg },
         (trades_remaining today s).2)) ∧
    (hld ≠ ticker →
      evaluate { env with technical := fun t => if t = hld then .error msg else env.technical t }
          today ticker ch s =
        evaluate { env with technical := fun t => if t = hld then .ok 0 else env.technical t }
          today ticker ch s) ∧
    (∀ t0 : String,
      evaluate { env with sentimentRisk := fun t => if t = t0 then none else env.sentimentRisk t }
          today ticker ch s =
        evaluate { env with sentimentRisk := fun t => if t = t0 then some (0, false) else env.sentimentRisk t }
          today ticker ch s) := by
  refine ⟨?_, ?_, ?_, ?_⟩
  · intro remaining S confidence s' he
    exact bullish_check_error he
  · intro h1 h2 h3
    rw [evaluate_open_no_holding h1 h2, evaluate_rest_none, bullish_check_error h3]
  · intro hne
    refine evaluate_env_congr ?_ ?_ ?_ ?_ ?_ ?_ ?_ today ch s
    · rfl
    · rfl
    · simp [candidate_S]
    · simp [candidate_confidence]
    · intro x
      by_cases hx : x = hld
      · simp [holding_T, hx]
      · simp [holding_T, hx]
    · intro x
      simp [holding_SC]
    · simp only
      rw [if_neg (fun e => hne e.symm), if_neg (fun e => hne e.symm)]
  · intro t0
    refine evaluate_env_congr ?_ ?_ ?_ ?_ ?_ ?_ ?_ today ch s
    · rfl
    · rfl
    · by_cases hx : ticker = t0
      · simp [candidate_S, hx]
      · simp [candidate_S, hx]
    · by_cases hx : ticker = t0
      · simp [candidate_confidence, hx]
      · simp [candidate_confidence, hx]
    · intro x
      simp [holding_T]
    · intro x
      by_cases hx : x = t0
      · simp [holding_SC, hx]
      · simp [holding_SC, hx]
    · simp

/-- Witness for C8: with every provider failing, `evaluate` on a fresh
day yields the technical-failure HOLD carrying the raised message. -/
theorem claim_C8_witness :
    (evaluate envAllFail 0 "XYZ" none freshState).1.reason =
      "Technical analysis failed: boom" ∧
    (evaluate envAllFail 0 "XYZ" none freshState).1.action = "HOLD" ∧
    (evaluate envAllFail 0 "XYZ" none freshState).1.S_score = 0 ∧
    (evaluate envAllFail 0 "XYZ" none freshState).1.aligned = false := by
  have hrem : (trades_remaining 0 freshState).1 ≠ 0 := by
    simp [trades_remaining, refresh_daily_counter, freshState, MAX_DAILY_TRADES]
  have h := (claim_C8 envAllFail 0 "XYZ" "H" "boom" none freshState).2.1 hrem rfl rfl
  rw [h]
  refine ⟨rfl, rfl, ?_, rfl⟩
  simp [candidate_S, envAllFail]

/-! Section: Step lemmas for `run_cycle` -/

theorem run_cycle_nil (env : Env) (today : Nat) (holding : Option String) (s : EngineState) :
    run_cycle env today [] holding s =
      { results := [], orders := [], holding := holding, state := s } := rfl

theorem run_cycle_buy_step {env : Env} {today : Nat} {t : String}
    {rest : List String} {holding : Option String} {s : EngineState}
    (hb : (evaluate env today t holding s).1.action = "BUY") :
    run_cycle env today (t :: rest) holding s =
      { results := (evaluate env today t holding s).1 ::
          (run_cycle env today rest (some t)
            (buy_update env t (evaluate env today t holding s).2)).results,
        orders := { side := "BUY", ticker := t, qty := 1 } ::
          (run_cycle env today rest (some t)
            (buy_update env t (evaluate env today t holding s).2)).orders,
        holding := (run_cycle env today rest (some t)
          (buy_update env t (evaluate env today t holding s).2)).holding,
        state := (run_cycle env today rest (some t)
          (buy_update env t (evaluate env today t holding s).2)).state } := by
  simp [run_cycle, hb]

theorem run_cycle_sell_step {env : Env} {today : Nat} {t : String}
    {rest : List String} {holding : Option String} {s : EngineState}
    (hb : (evaluate env today t holding s).1.action = "SELL")
    (ht : (evaluate env today t holding s).1.ticker ≠ "") :
    run_cycle env today (t :: rest) holding s =
      { results := (evaluate env today t holding s).1 ::
          (run_cycle env today rest none
            (sell_update (evaluate env today t holding s).1.ticker
              (evaluate env today t holding s).2)).results,
        orders := { side := "SELL", ticker := (evaluate env today t holding s).1.ticker, qty := 1 } ::
          (run_cycle env today rest none
            (sell_update (evaluate env today t holding s).1.ticker
              (evaluate env today t holding s).2)).orders,
        holding := (run_cycle env today rest none
          (sell_update (evaluate env today t holding s).1.ticker
            (evaluate env today t holding s).2)).holding,
        state := (run_cycle env today rest none
          (sell_update (evaluate env today t holding s).1.ticker
            (evaluate env today t holding s).2)).state } := by
  simp [run_cycle, hb, ht]

theorem run_cycle_pass_step {env : Env} {today : Nat} {t : String}
    {rest : List String} {holding : Option String} {s : EngineState}
    (hnb : (evaluate env today t holding s).1.action ≠ "BUY")
    (hns : ¬((evaluate env today t holding s).1.action = "SELL" ∧
             (evaluate env today t holding s).1.ticker ≠ "")) :
    run_cycle env today (t :: rest) holding s =
      { results := (evaluate env today t holding s).1 ::
          (run_cycle env today rest holding (evaluate env today t holding s).2).results,
        orders := (run_cycle env today rest holding (evaluate env today t holding s).2).orders,
        holding := (run_cycle env today rest holding (evaluate env today t holding s).2).holding,
        state := (run_cycle env today rest holding (evaluate env today t holding s).2).state } := by
  simp [run_cycle, hnb, hns]

theorem run_cycle_length (env : Env) (today : Nat) :
    ∀ (tickers : List String) (holding : Option String) (s : EngineState),
      (run_cycle env today tickers holding s).results.length = tickers.length := by
  intro tickers
  induction tickers with
  | nil =>
    intro holding s
    rfl
  | cons t rest ih =>
    intro holding s
    simp only [run_cycle]
    split
    · simp [ih]
    · split
      · simp [ih]
      · simp [ih]

/-! Section: Claim C6: `run_cycle` produces one ordered result per ticker and
executes the corresponding side effects -/

/-- Claim C6: `run_cycle` returns exactly one result per input ticker in
input order; a BUY step issues a one-unit buy order, passes the bought
ticker as the holding to the remaining iterations, and sets its peak
entry to the fetched price (or 0); a SELL step issues a one-unit sell
order for the result's ticker, pops that ticker's peak entry, and clears
the holding; any other result leaves orders, holding and (beyond
`evaluate`'s own effects) the state unchanged for the rest of the
cycle. -/
theorem claim_C6 (env : Env) (today : Nat) :
    (∀ (tickers : List String) (holding : Option String) (s : EngineState),
      (run_cycle env today tickers holding s).results.length = tickers.length) ∧
    (∀ (t : String) (rest : List String) (holding : Option String) (s : EngineState),
      ((evaluate env today t holding s).1.action = "BUY" →
        run_cycle env today (t :: rest) holding s =
          { results := (evaluate env today t holding s).1 ::
              (run_cycle env today rest (some t)
                (buy_update env t (evaluate env today t holding s).2)).results,
            orders := { side := "BUY", ticker := t, qty := 1 } ::
              (run_cycle env today rest (some t)
                (buy_update env t (evaluate env today t holding s).2)).orders,
            holding := (run_cycle env today rest (some t)
              (buy_update env t (evaluate env today t holding s).2)).holding,
            state := (run_cycle env today rest (some t)
              (buy_update env t (evaluate env today t holding s).2)).state }) ∧
      ((evaluate env today t holding s).1.action = "SELL" →
        (evaluate env today t holding s).1.ticker ≠ "" →
        run_cycle env today (t :: rest) holding s =
          { results := (evaluate env today t holding s).1 ::
              (run_cycle env today rest none
                (sell_update (evaluate env today t holding s).1.ticker
                  (evaluate env today t holding s).2)).results,
            orders := { side := "SELL", ticker := (evaluate env today t holding s).1.ticker, qty := 1 } ::
              (run_cycle env today rest none
                (sell_update (evaluate env today t holding s).1.ticker
                  (evaluate env today t holding s).2)).orders,
            holding := (run_cycle env today rest none
              (sell_update (evaluate env today t holding s).1.ticker
                (evaluate env today t holding s).2)).holding,
            state := (run_cycle env today rest none
              (sell_update (evaluate env today t holding s).1.ticker
                (evaluate env today t holding s).2)).state }) ∧
      ((evaluate env today t holding s).1.action ≠ "BUY" →
        ((evaluate env today t holding s).1.action = "SELL" →
          (evaluate env today t holding s).1.ticker = "") →
        run_cycle env today (t :: rest) holding s =
          { results := (evaluate env today t holding s).1 ::
              (run_cycle env today rest holding (evaluate env today t holding s).2).results,
            orders := (run_cycle env today rest holding (evaluate env today t holding s).2).orders,
            holding := (run_cycle env today rest holding (evaluate env today t holding s).2).holding,
            state := (run_cycle env today rest holding (evaluate env today t holding s).2).state })) := by
  refine ⟨run_cycle_length env today, ?_⟩
  intro t rest holding s
  refine ⟨fun hb => run_cycle_buy_step hb,
          fun hb ht => run_cycle_sell_step hb ht,
          fun hnb hns => run_cycle_pass_step hnb (fun hand => hand.2 (hns hand.1))⟩

/-! Section: A concrete stop-loss SELL scenario (position entered at 110,
price now 100) used by several witnesses -/

theorem sell_scenario_s1 :
    (trades_remaining 0 freshState).2 = (⟨some 0, 0, fun _ => none⟩ : EngineState) := by
  simp [trades_remaining_snd, refresh_daily_counter, freshState]

theorem sell_scenario_dd :
    check_drawdown_sell (boundaryEnv 100) (⟨some 0, 0, fun _ => none⟩ : EngineState) "AAA" =
      (true, (⟨some 0, 0, fun x => if x = "AAA" then some 110 else none⟩ : EngineState)) := by
  have hm : max ((110:ℚ)) 100 = 110 := max_eq_left (by norm_num)
  simp only [check_drawdown_sell, boundaryEnv, get_current_price, optCase_some,
    Option.getD_none, DRAWDOWN_THRESHOLD]
  simp only [hm]
  norm_num [Prod.mk.injEq]

theorem sell_scenario_rem : (trades_remaining 0 freshState).1 = 3 := by
  simp [trades_remaining, refresh_daily_counter, freshState, MAX_DAILY_TRADES]

theorem sell_scenario_eval :
    evaluate (boundaryEnv 100) 0 "XYZ" (some "AAA") freshState =
      ({ action := "SELL", ticker := "AAA", T_score := 0, S_score := 0,
         confidence_score := 1, aligned := true, daily_trades_left := 2,
         reason := "MIT Sloan: Position dropped >3% from peak. Sell triggered." },
       (⟨some 0, 1, fun x => if x = "AAA" then some 110 else none⟩ : EngineState)) := by
  have hrem : (trades_remaining 0 freshState).1 ≠ 0 := by
    rw [sell_scenario_rem]
    simp
  have hh : optTruthy (some "AAA") = some "AAA" := by simp [optTruthy]
  have hinc2 : increment_trade_count 0
      (⟨some 0, 0, fun x => if x = "AAA" then some 110 else none⟩ : EngineState) =
      (true, (⟨some 0, 1, fun x => if x = "AAA" then some 110 else none⟩ : EngineState)) := by
    simp [increment_trade_count, refresh_daily_counter, MAX_DAILY_TRADES]
  have hddf : (check_drawdown_sell (boundaryEnv 100) (trades_remaining 0 freshState).2 "AAA").1 = true := by
    rw [sell_scenario_s1, sell_scenario_dd]
  have hincf : (increment_trade_count 0
      (check_drawdown_sell (boundaryEnv 100) (trades_remaining 0 freshState).2 "AAA").2).1 = true := by
    rw [sell_scenario_s1, sell_scenario_dd]
    simp [hinc2]
  rw [evaluate_dd_sell hrem hh hddf hincf, sell_scenario_s1, sell_scenario_dd]
  simp only [hinc2]
  simp [trades_remaining, refresh_daily_counter, MAX_DAILY_TRADES]

/-- Witness for C6: in the stop-loss scenario, a one-ticker cycle emits
one result, issues exactly one one-unit SELL order for the holding,
clears the holding, and pops the holding's peak entry. -/
theorem claim_C6_witness :
    (run_cycle (boundaryEnv 100) 0 ["XYZ"] (some "AAA") freshState).results.length = 1 ∧
    (run_cycle (boundaryEnv 100) 0 ["XYZ"] (some "AAA") freshState).orders =
      [{ side := "SELL", ticker := "AAA", qty := 1 }] ∧
    (run_cycle (boundaryEnv 100) 0 ["XYZ"] (some "AAA") freshState).holding = none ∧
    (run_cycle (boundaryEnv 100) 0 ["XYZ"] (some "AAA") freshState).state.peak_prices "AAA" = none := by
  have h6 := claim_C6 (boundaryEnv 100) 0
  have hb : (evaluate (boundaryEnv 100) 0 "XYZ" (some "AAA") freshState).1.action = "SELL" := by
    rw [sell_scenario_eval]
  have ht : (evaluate (boundaryEnv 100) 0 "XYZ" (some "AAA") freshState).1.ticker ≠ "" := by
    rw [sell_scenario_eval]
    simp
  have hstep := ((h6.2 "XYZ" [] (some "AAA") freshState).2.1) hb ht
  refine ⟨h6.1 ["XYZ"] (some "AAA") freshState, ?_, ?_, ?_⟩
  · rw [hstep]
    simp [run_cycle_nil, sell_scenario_eval]
  · rw [hstep]
    simp [run_cycle_nil]
  · rw [hstep]
    simp only [run_cycle_nil]
    rw [sell_scenario_eval]
    simp [sell_update]

/-! Section: Claim C7: the peak-price map invariant (refuted and repaired) -/

/-- Environment in which the engine holds "AAA" (entry 100, steady price
100, neutral signals) while ticker "BBB" has a bullish technical and
sentiment alignment, so evaluating "BBB" produces a BUY while "AAA" is
still the tracked holding. -/
def buySwitchEnv : Env :=
  { getPosition := fun t => if t = "AAA" then some { entry_price := 100 } else none
    currentPrice := fun t => if t = "AAA" then some 100 else if t = "BBB" then some 50 else none
    sentimentRisk := fun t => if t = "BBB" then some (1/2, false) else some (0, false)
    technical := fun t => if t = "BBB" then .ok (1/2) else .ok 0 }

theorem buy_scenario_dd :
    check_drawdown_sell buySwitchEnv (⟨some 0, 0, fun _ => none⟩ : EngineState) "AAA" =
      (false, (⟨some 0, 0, fun x => if x = "AAA" then some 100 else none⟩ : EngineState)) := by
  simp only [check_drawdown_sell, buySwitchEnv, get_current_price]
  norm_num [Prod.mk.injEq, DRAWDOWN_THRESHOLD]

theorem buy_scenario_eval :
    evaluate buySwitchEnv 0 "BBB" (some "AAA") freshState =
      ({ action := "BUY", ticker := "BBB", T_score := 1/2, S_score := 1/2,
         confidence_score := 1, aligned := true, daily_trades_left := 2,
         reason := "Technical and sentiment aligned bullish." },
       (⟨some 0, 1, fun x => if x = "AAA" then some 100 else none⟩ : EngineState)) := by
  have hrem : (trades_remaining 0 freshState).1 ≠ 0 := by
    rw [sell_scenario_rem]
    simp
  have hh : optTruthy (some "AAA") = some "AAA" := by simp [optTruthy]
  have hddf : (check_drawdown_sell buySwitchEnv (trades_remaining 0 freshState).2 "AAA").1 = false := by
    rw [sell_scenario_s1, buy_scenario_dd]
  have hT : holding_T buySwitchEnv "AAA" = 0 := by
    simp [holding_T, buySwitchEnv]
  have hSC : holding_SC buySwitchEnv "AAA" = (0, 1) := by
    simp [holding_SC, buySwitchEnv]
  have ha : _aligned 0 0 1 = (false, "neutral") := by
    norm_num [_aligned, effective_threshold, ALIGNMENT_THRESHOLD]
  have hnb : ¬((_aligned (holding_T buySwitchEnv "AAA") (holding_SC buySwitchEnv "AAA").1
        (holding_SC buySwitchEnv "AAA").2).1 = true ∧
      (_aligned (holding_T buySwitchEnv "AAA") (holding_SC buySwitchEnv "AAA").1
        (holding_SC buySwitchEnv "AAA").2).2 = "bearish") := by
    rw [hT, hSC]
    simp [ha]
  have hS : candidate_S buySwitchEnv "BBB" = 1/2 := by
    simp [candidate_S, buySwitchEnv]
  have hconf : candidate_confidence buySwitchEnv "BBB" = 1 := by
    simp [candidate_confidence, buySwitchEnv]
  have hok : buySwitchEnv.technical "BBB" = .ok (1/2) := by
    simp [buySwitchEnv]
  have hab : _aligned (1/2) (1/2) 1 = (true, "bullish") := by
    norm_num [_aligned, effective_threshold, ALIGNMENT_THRESHOLD]
  have hbull : (_aligned (1/2) ((1:ℚ)/2) 1).1 = true ∧ (_aligned (1/2) ((1:ℚ)/2) 1).2 = "bullish" := by
    rw [hab]
    exact ⟨rfl, rfl⟩
  have hinc : (increment_trade_count 0
      (⟨some 0, 0, fun x => if x = "AAA" then some 100 else none⟩ : EngineState)).1 = true := by
    simp [increment_trade_count, refresh_daily_counter, MAX_DAILY_TRADES]
  rw [evaluate_dd_false hrem hh hddf, sell_scenario_s1, buy_scenario_dd]
  simp only [sell_scenario_rem]
  rw [evaluate_rest_not_bearish hnb, hS, hconf, bullish_check_buy hok hbull hinc]
  simp [increment_trade_count, refresh_daily_counter, trades_remaining, MAX_DAILY_TRADES]

/-- Claim C7 counterexample: From a fresh engine, one `run_cycle` over
`["BBB"]` while holding "AAA" ends with holding "BBB" but with the
peak-price entry for "AAA" still present: the claimed "entry iff
currently tracked holding" invariant fails. -/
theorem claim_C7_counterexample :
    (run_cycle buySwitchEnv 0 ["BBB"] (some "AAA") freshState).holding = some "BBB" ∧
    (run_cycle buySwitchEnv 0 ["BBB"] (some "AAA") freshState).holding ≠ some "AAA" ∧
    (run_cycle buySwitchEnv 0 ["BBB"] (some "AAA") freshState).state.peak_prices "AAA" =
      some 100 := by
  have hb : (evaluate buySwitchEnv 0 "BBB" (some "AAA") freshState).1.action = "BUY" := by
    rw [buy_scenario_eval]
  rw [run_cycle_buy_step hb]
  simp only [run_cycle_nil]
  rw [buy_scenario_eval]
  simp [buy_update]

/-- Claim C7 amended: SELL steps in `run_cycle` do remove the sold
ticker's peak entry and clear the holding, and BUY steps set the bought
ticker's entry; but a BUY leaves every other ticker's entry (in
particular the previous holding's) untouched, so the peak map may hold
entries for tickers other than the current holding. -/
theorem claim_C7 (env : Env) (today : Nat) (t : String)
    (holding : Option String) (s : EngineState) :
    ((evaluate env today t holding s).1.action = "SELL" →
      (evaluate env today t holding s).1.ticker ≠ "" →
      (run_cycle env today [t] holding s).state.peak_prices
          (evaluate env today t holding s).1.ticker = none ∧
      (run_cycle env today [t] holding s).holding = none) ∧
    ((evaluate env today t holding s).1.action = "BUY" →
      (run_cycle env today [t] holding s).state.peak_prices t =
        some ((get_current_price env t).getD 0) ∧
      (run_cycle env today [t] holding s).holding = some t ∧
      (∀ x, x ≠ t → (run_cycle env today [t] holding s).state.peak_prices x =
        (evaluate env today t holding s).2.peak_prices x)) := by
  constructor
  · intro hb ht
    rw [run_cycle_sell_step hb ht]
    simp only [run_cycle_nil]
    simp [sell_update]
  · intro hb
    rw [run_cycle_buy_step hb]
    simp only [run_cycle_nil]
    refine ⟨by simp [buy_update], by simp, ?_⟩
    intro x hx
    simp [buy_update, hx]

/-- Witness for the amended C7: in the BUY-while-holding scenario the
new entry for "BBB" is the fetched price 50, the holding becomes "BBB",
and the old "AAA" entry survives untouched. -/
theorem claim_C7_witness :
    (run_cycle buySwitchEnv 0 ["BBB"] (some "AAA") freshState).state.peak_prices "BBB" =
      some 50 ∧
    (run_cycle buySwitchEnv 0 ["BBB"] (some "AAA") freshState).holding = some "BBB" ∧
    (run_cycle buySwitchEnv 0 ["BBB"] (some "AAA") freshState).state.peak_prices "AAA" =
      (evaluate buySwitchEnv 0 "BBB" (some "AAA") freshState).2.peak_prices "AAA" := by
  have hb : (evaluate buySwitchEnv 0 "BBB" (some "AAA") freshState).1.action = "BUY" := by
    rw [buy_scenario_eval]
  have h := (claim_C7 buySwitchEnv 0 "BBB" (some "AAA") freshState).2 hb
  refine ⟨?_, h.2.1, h.2.2 "AAA" (by simp)⟩
  rw [h.1]
  simp [get_current_price, buySwitchEnv]

end SentinelBIST
